import Mathlib

/-!
Shallow embedding of the cropperjs-react-wrapper demo application
(`src/unnamed/part_000`, the `App` component).

The component's React `useState` hooks become fields of `AppState`; each
event handler becomes a pure function on `AppState` (plus explicit
parameters for the values the browser supplies: the selection element,
canvas conversion results, file-reader results, fetch outcomes, fresh
object-URL and DOM-node identifiers, and the current time).  Imperative
calls on the wrapped cropper elements and on the DOM are recorded in
explicit traces so that claims about which calls occur, and with which
arguments, can be stated.
-/

/-- Export formats selectable in the demo (`'png' | 'jpeg' | 'webp'`). -/
inductive ExportFormat where
  | png
  | jpeg
  | webp
deriving DecidableEq, Repr

/-- The literal string value of an export format, as used in the source
(`image/${exportFormat}` and filename templates). -/
def ExportFormat.name : ExportFormat → String
  | .png => "png"
  | .jpeg => "jpeg"
  | .webp => "webp"

/-- The active tab of the demo UI. -/
inductive Tab where
  | basic
  | transform
  | advanced
  | actions
deriving DecidableEq, Repr

/-- The crop rectangle stored in `cropData` (integers, since the source
stores `Math.round`ed values). -/
structure CropRect where
  x : Int
  y : Int
  width : Int
  height : Int
deriving DecidableEq, Repr

/-- Aspect-ratio presets accepted by `applyPreset`. -/
inductive Preset where
  | profile
  | banner
  | thumbnail
deriving DecidableEq, Repr

/-- The geometry of the cropper selection element read by `onCrop`
(JS numbers modelled as rationals). -/
structure Selection where
  x : Rat
  y : Rat
  width : Rat
  height : Rat
deriving DecidableEq, Repr

/-- Imported demo asset, a module-level constant URL. -/
def image1 : String := "../assets/image1.png"

/-- Imported demo asset, a module-level constant URL. -/
def image2 : String := "../assets/image2.png"

/-- The `App` component state: one field per `useState` hook, in source
order. -/
structure AppState where
  imgSrc : String
  croppedImage : Option String
  livePreview : Option String
  canvasBackground : Bool
  canvasDisabled : Bool
  scaleX : Int
  scaleY : Int
  showShade : Bool
  showGrid : Bool
  showCrosshair : Bool
  aspectRatio : Option Rat
  themeColor : String
  movable : Bool
  resizable : Bool
  zoomable : Bool
  gridRows : Nat
  gridColumns : Nat
  exportFormat : ExportFormat
  exportQuality : Rat
  cropData : Option CropRect
  activeTab : Tab
deriving DecidableEq, Repr

/-- The initial state of the component: the `useState` initial values. -/
def initialState : AppState where
  imgSrc := image1
  croppedImage := none
  livePreview := none
  canvasBackground := true
  canvasDisabled := false
  scaleX := 1
  scaleY := 1
  showShade := false
  showGrid := true
  showCrosshair := true
  aspectRatio := none
  themeColor := "#3399ff"
  movable := true
  resizable := true
  zoomable := true
  gridRows := 3
  gridColumns := 3
  exportFormat := .png
  exportQuality := 92/100
  cropData := none
  activeTab := .basic

/-- `applyPreset`: a `switch` over the preset calling `setAspectRatio`
with `1`, `16 / 9`, or `4 / 3`. -/
def applyPreset (preset : Preset) (s : AppState) : AppState :=
  match preset with
  | .profile => { s with aspectRatio := some 1 }
  | .banner => { s with aspectRatio := some (16/9) }
  | .thumbnail => { s with aspectRatio := some (4/3) }

/-- `handleFlipHorizontal`: `setScaleX(scaleX * -1)`. -/
def handleFlipHorizontal (s : AppState) : AppState :=
  { s with scaleX := s.scaleX * -1 }

/-- `handleFlipVertical`: `setScaleY(scaleY * -1)`. -/
def handleFlipVertical (s : AppState) : AppState :=
  { s with scaleY := s.scaleY * -1 }

/-- Arguments of the `image.$scale` call made by the `useEffect` hook
with dependency array `[scaleX]` (source line 142): the literal `-1`
and the current `scaleY`. -/
def scaleEffectOnScaleX (s : AppState) : Int × Int :=
  (-1, s.scaleY)

/-- Arguments of the `image.$scale` call made by the `useEffect` hook
with dependency array `[scaleY]` (source line 150): the current `scaleX`
and the literal `-1`. -/
def scaleEffectOnScaleY (s : AppState) : Int × Int :=
  (s.scaleX, -1)

/-- A flip action triggered from the Transformations tab. -/
inductive FlipAction where
  | horizontal
  | vertical
deriving DecidableEq, Repr

/-- Apply one flip action to the state. -/
def applyFlip (a : FlipAction) (s : AppState) : AppState :=
  match a with
  | .horizontal => handleFlipHorizontal s
  | .vertical => handleFlipVertical s

/-- Apply a sequence of flip actions in order. -/
def applyFlips : List FlipAction → AppState → AppState
  | [], s => s
  | a :: rest, s => applyFlips rest (applyFlip a s)

/-- JavaScript `Math.round`: the nearest integer, ties rounding up. -/
def jsRound (q : Rat) : Int :=
  ⌊q + 1/2⌋

/-- A canvas produced by `selection.$toCanvas()`; its pixel content is
abstracted to an identifier. -/
structure Canvas where
  data : String
deriving DecidableEq, Repr

/-- Model of `canvas.toDataURL(mimeType, quality)`: an injective encoding
of the canvas content, the MIME type and the quality. -/
def toDataURL (c : Canvas) (mimeType : String) (quality : Rat) : String :=
  "data:" ++ mimeType ++ ";q=" ++ toString quality ++ ";" ++ c.data

/-- Model of `canvas.toDataURL()` with no arguments, as called in
`updateLivePreview` (the browser default is PNG). -/
def toDataURLDefault (c : Canvas) : String :=
  "data:image/png;" ++ c.data

/-- `updateLivePreview`: awaits `selection.$toCanvas()` and stores the
canvas data URL in `livePreview`.  The selection ref and the outcome of
the awaited conversion are explicit parameters; the function body has no
`try`/`catch`, so a conversion failure rejects the returned promise,
modelled as `Except.error`. -/
def updateLivePreviewRun (s : AppState) (sel : Option Selection)
    (conv : Except String Canvas) : Except String AppState :=
  match sel with
  | none => .ok s
  | some _ =>
    match conv with
    | .error e => .error e
    | .ok canvas => .ok { s with livePreview := some (toDataURLDefault canvas) }

/-- `onCrop`: fires `updateLivePreview()` (not awaited) and, when the
selection ref is non-null, stores the rounded selection geometry in
`cropData`.  Only the synchronous state update is modelled here; the
asynchronous `livePreview` write is `updateLivePreviewRun`. -/
def onCrop (s : AppState) (sel : Option Selection) : AppState :=
  match sel with
  | none => s
  | some q =>
    { s with cropData := some ⟨jsRound q.x, jsRound q.y,
                               jsRound q.width, jsRound q.height⟩ }

/-- `handleGetResult`: awaits `selection.$toCanvas()`, builds
`image/${exportFormat}`, calls `canvas.toDataURL(mimeType, exportQuality)`
and stores the result in `croppedImage`.  Returns the updated state
together with the arguments of the `toDataURL` call (`none` when no call
was made); as in the source there is no `try`/`catch`, so a conversion
failure rejects the promise. -/
def handleGetResultRun (s : AppState) (sel : Option Selection)
    (conv : Except String Canvas) :
    Except String (AppState × Option (String × Rat)) :=
  match sel with
  | none => .ok (s, none)
  | some _ =>
    match conv with
    | .error e => .error e
    | .ok canvas =>
      let mimeType := "image/" ++ s.exportFormat.name
      let dataUrl := toDataURL canvas mimeType s.exportQuality
      .ok ({ s with croppedImage := some dataUrl }, some (mimeType, s.exportQuality))

/-- The result delivered to the `FileReader` `onload` handler
(`event.target?.result`): a string, a binary buffer, or absent. -/
inductive ReadResult where
  | str (value : String)
  | buffer
deriving DecidableEq, Repr

/-- `handleFileUpload`: when a file is present in the change event, a
`FileReader` is started and `onload` receives `event.target?.result`;
`setImgSrc` runs only when that result is a string.  The selected file
(presence only) and the delivered result are explicit parameters. -/
def handleFileUpload (s : AppState) (file : Option Unit)
    (result : Option ReadResult) : AppState :=
  match file with
  | none => s
  | some _ =>
    match result with
    | some (.str value) => { s with imgSrc := value }
    | _ => s

/-- The download filename built by `downloadImage`:
`cropped-image-${Date.now()}.${exportFormat}`. -/
def downloadFilename (now : Nat) (format : ExportFormat) : String :=
  "cropped-image-" ++ Nat.repr now ++ "." ++ format.name

/-- The `download` attribute of the Cropped Result anchor:
`cropped.${exportFormat}` (source line 621). -/
def resultAnchorFilename (format : ExportFormat) : String :=
  "cropped." ++ format.name

/-- The observable effects of one `downloadImage` call: blobs obtained,
object URLs created and revoked, anchors created, the filename given to
the anchor, the final `document.body` child list, and console-error log
entries. -/
structure DownloadTrace where
  blobsObtained : Nat
  urlsCreated : List Nat
  urlsRevoked : List Nat
  anchorsCreated : Nat
  filename : Option String
  finalBody : List Nat
  logs : List String
deriving DecidableEq, Repr

/-- `downloadImage`: returns at once when `livePreview` is undefined;
otherwise, inside a `try`/`catch`, awaits `fetch(livePreview)` and
`response.blob()` (their combined outcome is the `fetched` parameter),
creates an object URL for the blob, appends a fresh anchor to
`document.body`, clicks it, removes it again, and revokes the URL; any
failure is caught and logged with `console.error`.  `freshUrl` and
`freshAnchor` are the identifiers the browser would mint; `body` is the
child list of `document.body` before the call.  The result is always
`Except.ok` because the whole body is inside the `try`. -/
def downloadImageRun (livePreview : Option String) (format : ExportFormat)
    (now : Nat) (fetched : Except String Nat) (freshUrl : Nat)
    (freshAnchor : Nat) (body : List Nat) : Except String DownloadTrace :=
  match livePreview with
  | none => .ok ⟨0, [], [], 0, none, body, []⟩
  | some _ =>
    match fetched with
    | .error e => .ok ⟨0, [], [], 0, none, body, ["Error downloading image:" ++ e]⟩
    | .ok _blob =>
      let url := freshUrl
      let filename := downloadFilename now format
      let bodyAppended := body ++ [freshAnchor]
      let bodyRemoved := bodyAppended.dropLast
      .ok ⟨1, [url], [url], 1, some filename, bodyRemoved, []⟩

/-- One observable effect of a demo event handler: an awaited browser
operation, a call on a wrapped cropper element, or a DOM/URL action. -/
inductive Effect where
  | awaitToCanvas
  | awaitFileRead
  | awaitFetch
  | awaitBlob
  | createObjectURL
  | revokeObjectURL
  | domAppendChild
  | domClick
  | domRemoveChild
  | callScale
  | callRotate (degrees : Int)
  | callZoom (delta : Rat)
  | callResetTransform
deriving DecidableEq, Repr

/-- Whether the effect awaits or schedules asynchronous work.
`FileReader.readAsDataURL` schedules an asynchronous read; `fetch` and
`blob()` are awaited; `$toCanvas` is awaited. -/
def Effect.isAsync : Effect → Bool
  | .awaitToCanvas => true
  | .awaitFileRead => true
  | .awaitFetch => true
  | .awaitBlob => true
  | _ => false

/-- The event handlers and operations defined by the `App` component,
with the arguments the JSX passes them.  `inlineSetter` stands for every
inline `onClick`/`onChange` arrow function, which only calls a state
setter. -/
inductive Handler where
  | onCrop
  | updateLivePreview
  | handleGetResult
  | handleFileUpload
  | handleRotate (degrees : Int)
  | handleFlipHorizontal
  | handleFlipVertical
  | handleZoom (delta : Rat)
  | handleResetTransformations
  | applyPreset (p : Preset)
  | downloadImage
  | inlineSetter
deriving DecidableEq, Repr

/-- The presence flags and outcomes the browser supplies during one
handler invocation. -/
structure Env where
  selectionPresent : Bool
  imagePresent : Bool
  filePresent : Bool
  livePreviewPresent : Bool
  fetchFails : Bool
deriving DecidableEq, Repr

/-- The effect trace of one handler invocation, read off the handler
bodies (and, for the flip handlers, the `useEffect` hooks their state
updates trigger). -/
def handlerTrace (h : Handler) (env : Env) : List Effect :=
  match h with
  | .onCrop => if env.selectionPresent then [.awaitToCanvas] else []
  | .updateLivePreview => if env.selectionPresent then [.awaitToCanvas] else []
  | .handleGetResult => if env.selectionPresent then [.awaitToCanvas] else []
  | .handleFileUpload => if env.filePresent then [.awaitFileRead] else []
  | .handleRotate d => if env.imagePresent then [.callRotate d] else []
  | .handleFlipHorizontal => if env.imagePresent then [.callScale] else []
  | .handleFlipVertical => if env.imagePresent then [.callScale] else []
  | .handleZoom d => if env.imagePresent then [.callZoom d] else []
  | .handleResetTransformations =>
    if env.imagePresent then [.callResetTransform] else []
  | .applyPreset _ => []
  | .downloadImage =>
    if env.livePreviewPresent then
      if env.fetchFails then [.awaitFetch]
      else [.awaitFetch, .awaitBlob, .createObjectURL, .domAppendChild,
            .domClick, .domRemoveChild, .revokeObjectURL]
    else []
  | .inlineSetter => []

/-- The async effects the specification attributes to each handler:
the file read to `handleFileUpload`, the selection-to-canvas conversion
to `updateLivePreview` and `handleGetResult` (and to `onCrop`, which
invokes `updateLivePreview`), and the fetch/blob conversion to
`downloadImage`. -/
def asyncAllowed (h : Handler) (e : Effect) : Prop :=
  (h = .handleFileUpload ∧ e = .awaitFileRead) ∨
  ((h = .onCrop ∨ h = .updateLivePreview ∨ h = .handleGetResult) ∧
    e = .awaitToCanvas) ∨
  (h = .downloadImage ∧ (e = .awaitFetch ∨ e = .awaitBlob))

/-- Helper: under any flip sequence, scale factors in the set
with elements 1 and -1 stay in that set. -/
theorem flip_invariant_aux (acts : List FlipAction) (s : AppState)
    (hx : s.scaleX = 1 ∨ s.scaleX = -1) (hy : s.scaleY = 1 ∨ s.scaleY = -1) :
    ((applyFlips acts s).scaleX = 1 ∨ (applyFlips acts s).scaleX = -1) ∧
    ((applyFlips acts s).scaleY = 1 ∨ (applyFlips acts s).scaleY = -1) := by
  induction acts generalizing s with
  | nil => exact ⟨hx, hy⟩
  | cons a rest ih =>
    cases a with
    | horizontal =>
      refine ih _ ?_ hy
      rcases hx with h | h <;> simp [applyFlip, handleFlipHorizontal, h]
    | vertical =>
      refine ih _ hx ?_
      rcases hy with h | h <;> simp [applyFlip, handleFlipVertical, h]

/-- Claim C1: `applyPreset` sets the aspect-ratio state to 1 for
`profile`, 16/9 for `banner`, and 4/3 for `thumbnail`, and changes no
other state. -/
theorem applyPreset_sets_expected_aspect (s : AppState) :
    applyPreset .profile s = { s with aspectRatio := some 1 } ∧
    applyPreset .banner s = { s with aspectRatio := some (16/9) } ∧
    applyPreset .thumbnail s = { s with aspectRatio := some (4/3) } :=
  ⟨rfl, rfl, rfl⟩

/-- Claim C2, counterexample: starting from the state reached by one
horizontal flip (`scaleX = -1`), a second horizontal flip updates
`scaleX` to 1, but the triggered effect invokes `$scale` with first
argument the literal -1, not the updated `scaleX`. -/
theorem scaleEffect_not_updated_scaleX :
    scaleEffectOnScaleX (handleFlipHorizontal (handleFlipHorizontal initialState)) ≠
      ((handleFlipHorizontal (handleFlipHorizontal initialState)).scaleX,
       (handleFlipHorizontal (handleFlipHorizontal initialState)).scaleY) := by
  decide

/-- Claim C2, amended: a horizontal flip negates `scaleX`, and the
triggered effect invokes `$scale` with the literal -1 as first argument
and the current `scaleY` as second; symmetrically, a vertical flip
negates `scaleY`, and the triggered effect invokes `$scale` with the
current `scaleX` and the literal -1. -/
theorem flip_negates_and_effect_passes_literal (s : AppState) :
    (handleFlipHorizontal s).scaleX = -s.scaleX ∧
    scaleEffectOnScaleX (handleFlipHorizontal s) = (-1, s.scaleY) ∧
    (handleFlipVertical s).scaleY = -s.scaleY ∧
    scaleEffectOnScaleY (handleFlipVertical s) = (s.scaleX, -1) := by
  refine ⟨?_, rfl, ?_, rfl⟩ <;> simp [handleFlipHorizontal, handleFlipVertical]

/-- Claim C3, counterexample: a failing selection-to-canvas conversion
in `updateLivePreview` is not caught and logged; it propagates as the
rejection of the returned promise. -/
theorem toCanvas_failure_propagates :
    updateLivePreviewRun initialState (some ⟨0, 0, 10, 10⟩)
      (.error "blob conversion failed") = .error "blob conversion failed" := rfl

/-- Claim C3, amended: browser API failures in `downloadImage` are
caught and logged (the call always resolves, and a failure produces a
console-error entry), but failures of the selection-to-canvas
conversion in `updateLivePreview` and `handleGetResult` are not caught:
they propagate to the caller as rejected promises. -/
theorem error_handling_downloadImage_only (lp e msg : String)
    (format : ExportFormat) (now freshUrl freshAnchor : Nat)
    (fetched : Except String Nat) (body : List Nat) (s : AppState)
    (q : Selection) :
    (∃ t, downloadImageRun (some lp) format now fetched freshUrl freshAnchor
        body = .ok t) ∧
    downloadImageRun (some lp) format now (.error e) freshUrl freshAnchor
        body = .ok ⟨0, [], [], 0, none, body, ["Error downloading image:" ++ e]⟩ ∧
    updateLivePreviewRun s (some q) (.error msg) = .error msg ∧
    handleGetResultRun s (some q) (.error msg) = .error msg := by
  refine ⟨?_, rfl, rfl, rfl⟩
  cases fetched <;> exact ⟨_, rfl⟩

/-- Claim C4: with a non-null selection, `onCrop` stores the selection's
coordinates each rounded to the nearest integer (JS `Math.round`, which
is within 1/2 of the value) in `cropData`; with a null selection the
state, in particular `cropData`, is unchanged. -/
theorem onCrop_rounds_selection (s : AppState) (q : Selection) :
    (onCrop s (some q)).cropData =
      some ⟨jsRound q.x, jsRound q.y, jsRound q.width, jsRound q.height⟩ ∧
    onCrop s none = s ∧
    ∀ r : Rat, |r - (jsRound r : Rat)| ≤ 1/2 := by
  refine ⟨rfl, rfl, fun r => ?_⟩
  rw [abs_le]
  have h1 := Int.floor_le (r + 1/2)
  have h2 := Int.lt_floor_add_one (r + 1/2)
  unfold jsRound
  constructor <;> push_cast at h1 h2 ⊢ <;> linarith

/-- Claim C5: for every selected export format, `handleGetResult` calls
`toDataURL` with MIME type the string `image/` followed by the format
name and with the current `exportQuality`, and both download filenames
(the one built by `downloadImage` and the Cropped Result anchor's
`download` attribute) end in a dot followed by the format name. -/
theorem export_format_consistency (s : AppState) (q : Selection) (c : Canvas)
    (now : Nat) :
    handleGetResultRun s (some q) (.ok c) =
      .ok ({ s with croppedImage := some (toDataURL c
              ("image/" ++ s.exportFormat.name) s.exportQuality) },
           some ("image/" ++ s.exportFormat.name, s.exportQuality)) ∧
    (∃ stem, downloadFilename now s.exportFormat =
      stem ++ "." ++ s.exportFormat.name) ∧
    (∃ stem, resultAnchorFilename s.exportFormat =
      stem ++ "." ++ s.exportFormat.name) :=
  ⟨rfl, ⟨"cropped-image-" ++ Nat.repr now, rfl⟩, ⟨"cropped", rfl⟩⟩

/-- Claim C6: every asynchronous effect in any handler's trace is one of
the enumerated async points: the file read in `handleFileUpload`, the
selection-to-canvas conversion in `updateLivePreview` and
`handleGetResult` (reached from `onCrop` as well), and the fetch/blob
conversion in `downloadImage`; no other operation awaits or schedules
asynchronous work. -/
theorem demo_async_points (h : Handler) (env : Env) (e : Effect)
    (hmem : e ∈ handlerTrace h env) (hasync : e.isAsync = true) :
    asyncAllowed h e := by
  cases h <;>
    simp only [handlerTrace] at hmem <;>
    (repeat' split at hmem) <;>
    simp_all [asyncAllowed, Effect.isAsync] <;>
    rcases hmem with rfl | rfl | rfl | rfl | rfl | rfl | rfl <;>
    simp_all [Effect.isAsync]

/-- Witness for `demo_async_points` at the file-upload handler with a
file present. -/
theorem demo_async_points_witness :
    asyncAllowed .handleFileUpload .awaitFileRead :=
  demo_async_points .handleFileUpload ⟨true, true, true, true, false⟩
    .awaitFileRead (by decide) (by decide)

/-- Claim C7: `handleFileUpload` sets `imgSrc` exactly when a file is
present and the reader result is a string; with no file, a missing
result, or a non-string result, the state is unchanged. -/
theorem handleFileUpload_guarded (s : AppState) (v : String)
    (r : Option ReadResult) :
    handleFileUpload s (some ()) (some (.str v)) = { s with imgSrc := v } ∧
    handleFileUpload s none r = s ∧
    handleFileUpload s (some ()) none = s ∧
    handleFileUpload s (some ()) (some .buffer) = s :=
  ⟨rfl, rfl, rfl, rfl⟩

/-- Claim C8: `scaleX` and `scaleY` both start at 1, and after any
sequence of flip actions from the initial state each remains 1 or -1. -/
theorem scale_factors_stay_unit (acts : List FlipAction) :
    initialState.scaleX = 1 ∧ initialState.scaleY = 1 ∧
    ((applyFlips acts initialState).scaleX = 1 ∨
      (applyFlips acts initialState).scaleX = -1) ∧
    ((applyFlips acts initialState).scaleY = 1 ∨
      (applyFlips acts initialState).scaleY = -1) := by
  have h := flip_invariant_aux acts initialState (Or.inl rfl) (Or.inl rfl)
  exact ⟨rfl, rfl, h.1, h.2⟩

/-- Claim C9: applying the horizontal flip twice restores the whole
state, in particular `scaleX`; likewise the vertical flip for `scaleY`:
each flip is an involution on the transform state. -/
theorem flip_involution (s : AppState) :
    (handleFlipHorizontal (handleFlipHorizontal s)).scaleX = s.scaleX ∧
    (handleFlipVertical (handleFlipVertical s)).scaleY = s.scaleY ∧
    handleFlipHorizontal (handleFlipHorizontal s) = s ∧
    handleFlipVertical (handleFlipVertical s) = s := by
  cases s
  simp [handleFlipHorizontal, handleFlipVertical]

/-- Claim C10: with no live preview, `downloadImage` is a no-op — it
obtains no blob, creates no object URL and no anchor, and leaves the
document body unchanged; on the successful path the document body is
unchanged on return (the appended anchor is removed) and the one object
URL created is also revoked. -/
theorem downloadImage_frame (lp : String) (format : ExportFormat)
    (now blob freshUrl freshAnchor : Nat) (body : List Nat)
    (fetched : Except String Nat) :
    downloadImageRun none format now fetched freshUrl freshAnchor body =
      .ok ⟨0, [], [], 0, none, body, []⟩ ∧
    ∃ t, downloadImageRun (some lp) format now (.ok blob) freshUrl
        freshAnchor body = .ok t ∧
      t.finalBody = body ∧ t.urlsCreated = [freshUrl] ∧
      t.urlsRevoked = t.urlsCreated ∧ t.anchorsCreated = 1 := by
  refine ⟨rfl, _, rfl, ?_, rfl, rfl, rfl⟩
  simp [downloadImageRun]
